import Mathlib

/-!
Verification of the PDFToStructuredData pipeline.

Shallow embedding of the repository's core modules:
  * `src/pdf_processor.py`  — `PDFProcessor` (fallback chain of three text
    extraction strategies over a PDF file);
  * `src/extractor.py`      — `get_language_model_type`, `StructuredExtractor`
    (`extract_from_text`, `extract_with_template`, `save_results`);
  * `src/utils.py`          — `load_custom_template`;
  * `pdf_extractor.py`      — the `batch` command loop.

External libraries (pdfplumber / PyMuPDF / PyPDF2, the LangExtract service,
pandas, the filesystem) are modelled by explicit environments describing the
outcome each call would have: a strategy either raises or yields the list of
per-page texts, the extraction service either throws or returns a shaped
result, and filesystem operations either throw or succeed.  All functions are
computable and all base types carry decidable equality so that concrete runs
evaluate by `decide`/`rfl`.
-/

set_option autoImplicit false

namespace PdfToStructured

/-- Python's `sep.join(xs)`: empty string on the empty list, otherwise the
elements interleaved with the separator. -/
def pyJoin (sep : String) : List String → String
  | [] => ""
  | [x] => x
  | x :: y :: xs => x ++ sep ++ pyJoin sep (y :: xs)

/-- Python's `pat in s` on lists of characters: some contiguous run of `s`
equals `pat`. -/
def isPrefixChars : List Char → List Char → Bool
  | [], _ => true
  | _ :: _, [] => false
  | a :: as, b :: bs => a == b && isPrefixChars as bs

def containsChars (pat : List Char) : List Char → Bool
  | [] => isPrefixChars pat []
  | b :: bs => isPrefixChars pat (b :: bs) || containsChars pat bs

/-- Python's `pat in s` for strings. -/
def pyIn (pat s : String) : Bool := containsChars pat.data s.data

/-- Python's `s.startswith(pre)`. -/
def pyStartsWith (s pre : String) : Bool := isPrefixChars pre.data s.data

/-- Python's `s.lower()`. -/
def lowerStr (s : String) : String := String.mk (s.data.map Char.toLower)

/-- Python's whitespace set for `str.strip()`. -/
def isPyWhitespace (c : Char) : Bool :=
  c == ' ' || c == '\t' || c == '\n' || c == '\r' || c == '\x0B' || c == '\x0C'

/-- Python's `s.strip()`: drop whitespace from both ends. -/
def pyStrip (s : String) : String :=
  String.mk (((s.data.dropWhile isPyWhitespace).reverse.dropWhile isPyWhitespace).reverse)

/-! ## PDFProcessor (src/pdf_processor.py) -/

/-- The three extraction strategies of `PDFProcessor.extraction_methods`,
in their fixed preference order. -/
inductive Strategy
  | pdfplumber
  | pymupdf
  | pypdf2
deriving DecidableEq, Repr

/-- What one underlying PDF library does on a given file: either the call
raises (soft failure for the chain) or it opens the document and reports the
per-page extracted texts, in page order.  A page for which the library
returns no text (pdfplumber's `None`) is modelled as the empty string, which
is observationally identical under Python truthiness. -/
inductive StratOutcome
  | throws (msg : String)
  | pages (ps : List String)
deriving DecidableEq, Repr

/-- A PDF file as seen by `PDFProcessor.extract_text`: its path, whether it
exists, whether its suffix is `.pdf` (lowercased), and the behaviour of each
of the three libraries on it. -/
structure PdfFile where
  path : String
  fileExists : Bool
  isPdf : Bool
  plumber : StratOutcome
  mupdf : StratOutcome
  pypdf : StratOutcome
deriving DecidableEq, Repr

def stratOutcome (s : Strategy) (f : PdfFile) : StratOutcome :=
  match s with
  | .pdfplumber => f.plumber
  | .pymupdf => f.mupdf
  | .pypdf2 => f.pypdf

/-- The per-page inclusion test of each strategy's loop:
`_extract_with_pdfplumber` keeps a page when `page_text` is truthy
(non-empty); `_extract_with_pymupdf` and `_extract_with_pypdf2` keep a page
when `page_text.strip()` is truthy (not whitespace-only). -/
def keepPage : Strategy → String → Bool
  | .pdfplumber, t => t != ""
  | .pymupdf, t => pyStrip t != ""
  | .pypdf2, t => pyStrip t != ""

/-- The page loop of each `_extract_with_*` method: `n` is the 0-based
`page_num` of `enumerate`; a kept page contributes the block
`f"--- Page {page_num + 1} ---\n{page_text}"`. -/
def buildBlocks (keep : String → Bool) : Nat → List String → List String
  | _, [] => []
  | n, t :: ts =>
    (if keep t then ["--- Page " ++ toString (n + 1) ++ " ---\n" ++ t] else [])
      ++ buildBlocks keep (n + 1) ts

/-- The contributing pages of a document, paired with their 1-based page
numbers, as selected by the page loop starting at 0-based index `n`. -/
def contribPages (keep : String → Bool) : Nat → List String → List (Nat × String)
  | _, [] => []
  | n, t :: ts =>
    (if keep t then [(n + 1, t)] else []) ++ contribPages keep (n + 1) ts

/-- The result dictionary of one `_extract_with_*` method: the joined text,
the `metadata['method']` tag and `metadata['pages']` page count. -/
structure ExtractResult where
  text : String
  method : Strategy
  pageCount : Nat
deriving DecidableEq, Repr

/-- One `_extract_with_*` method: raises when the library raises; otherwise
joins the blocks of kept pages with `'\n\n'` and reports the total page
count. -/
def runStrategy (s : Strategy) (f : PdfFile) : Except String ExtractResult :=
  match stratOutcome s f with
  | .throws m => .error m
  | .pages ps =>
    .ok { text := pyJoin "\n\n" (buildBlocks (keepPage s) 0 ps)
          method := s
          pageCount := ps.length }

/-- The strategy loop of `extract_text`: returns both the list of invoked
strategies and the final outcome.  A strategy that raises is skipped; a
strategy whose text has empty `strip()` is skipped; the first strategy with
non-empty trimmed text is accepted and no later strategy is invoked. -/
def tryMethods (f : PdfFile) : List Strategy → List Strategy × Except String ExtractResult
  | [] => ([], .error ("Failed to extract text from PDF: " ++ f.path))
  | s :: rest =>
    match runStrategy s f with
    | .ok r =>
      if pyStrip r.text ≠ "" then ([s], .ok r)
      else
        let p := tryMethods f rest
        (s :: p.1, p.2)
    | .error _ =>
      let p := tryMethods f rest
      (s :: p.1, p.2)

/-- `PDFProcessor.extraction_methods`, in order. -/
def extractionOrder : List Strategy := [.pdfplumber, .pymupdf, .pypdf2]

/-- `PDFProcessor.extract_text`: path checks, then the strategy loop. -/
def extract_text (f : PdfFile) : Except String ExtractResult :=
  if f.fileExists = false then .error ("PDF file not found: " ++ f.path)
  else if f.isPdf = false then .error ("File is not a PDF: " ++ f.path)
  else (tryMethods f extractionOrder).2

/-- The strategies actually invoked by `extract_text` (empty when the path
checks fail before the loop). -/
def invokedStrategies (f : PdfFile) : List Strategy :=
  if f.fileExists && f.isPdf then (tryMethods f extractionOrder).1 else []

/-- A strategy "succeeds" on a file when its method returns (does not raise)
and the returned text has non-empty `strip()`. -/
def stratSucceeds (s : Strategy) (f : PdfFile) : Bool :=
  match runStrategy s f with
  | .ok r => pyStrip r.text != ""
  | .error _ => false

/-- Position of a strategy in the fixed preference order. -/
def stratIdx : Strategy → Nat
  | .pdfplumber => 0
  | .pymupdf => 1
  | .pypdf2 => 2

/-- Written from the spec: the page-delimiter header line for 1-based page
number `n`. -/
def specHeaderLine (n : Nat) : String := "--- Page " ++ toString n ++ " ---"

/-- Written from the spec: blocks joined with a blank line between
consecutive blocks. -/
def specJoinBlocks : List String → String
  | [] => ""
  | [b] => b
  | b :: c :: bs => b ++ "\n\n" ++ specJoinBlocks (c :: bs)

theorem stratSucceeds_ok {s : Strategy} {f : PdfFile}
    (h : stratSucceeds s f = true) :
    ∃ r, runStrategy s f = .ok r ∧ pyStrip r.text ≠ "" := by
  unfold stratSucceeds at h
  cases hr : runStrategy s f with
  | ok r =>
    rw [hr] at h
    exact ⟨r, rfl, by simpa [bne_iff_ne] using h⟩
  | error m => rw [hr] at h; simp at h

theorem tryMethods_cons_succ (f : PdfFile) (s : Strategy) (rest : List Strategy)
    (h : stratSucceeds s f = true) :
    ∃ r, runStrategy s f = .ok r ∧ tryMethods f (s :: rest) = ([s], .ok r) := by
  obtain ⟨r, hr, hne⟩ := stratSucceeds_ok h
  exact ⟨r, hr, by simp [tryMethods, hr, hne]⟩

theorem tryMethods_cons_fail (f : PdfFile) (s : Strategy) (rest : List Strategy)
    (h : stratSucceeds s f = false) :
    tryMethods f (s :: rest) = (s :: (tryMethods f rest).1, (tryMethods f rest).2) := by
  unfold stratSucceeds at h
  cases hr : runStrategy s f with
  | error m => simp [tryMethods, hr]
  | ok r =>
    rw [hr] at h
    by_cases hx : pyStrip r.text = ""
    · simp [tryMethods, hr, hx]
    · simp [bne_iff_ne, hx] at h

/-- C1: if at least one strategy succeeds (does not raise and returns text
with non-empty `strip()`), `extract_text` returns the output of the first
succeeding strategy in the fixed order pdfplumber, pymupdf, pypdf2, all
earlier strategies failed (raised or whitespace-only — soft failures), and
no strategy after the accepted one is invoked. -/
theorem C1_first_success_wins (f : PdfFile)
    (hfe : f.fileExists = true) (hpdf : f.isPdf = true)
    (h : ∃ s ∈ extractionOrder, stratSucceeds s f = true) :
    ∃ s ∈ extractionOrder, stratSucceeds s f = true ∧
      (∀ s' ∈ extractionOrder, stratIdx s' < stratIdx s → stratSucceeds s' f = false) ∧
      (∃ r, runStrategy s f = .ok r ∧ extract_text f = .ok r) ∧
      invokedStrategies f = extractionOrder.take (stratIdx s + 1) := by
  have hext : extract_text f = (tryMethods f [.pdfplumber, .pymupdf, .pypdf2]).2 := by
    simp [extract_text, hfe, hpdf, extractionOrder]
  have hinv : invokedStrategies f = (tryMethods f [.pdfplumber, .pymupdf, .pypdf2]).1 := by
    simp [invokedStrategies, hfe, hpdf, extractionOrder]
  cases h1 : stratSucceeds .pdfplumber f with
  | true =>
    obtain ⟨r, hr, htm⟩ := tryMethods_cons_succ f .pdfplumber [.pymupdf, .pypdf2] h1
    refine ⟨.pdfplumber, by simp [extractionOrder], h1, ?_, ⟨r, hr, ?_⟩, ?_⟩
    · intro s' _ hlt
      simp [stratIdx] at hlt
    · rw [hext, htm]
    · rw [hinv, htm]
      simp [extractionOrder, stratIdx]
  | false =>
    have t1 := tryMethods_cons_fail f .pdfplumber [.pymupdf, .pypdf2] h1
    cases h2 : stratSucceeds .pymupdf f with
    | true =>
      obtain ⟨r, hr, htm⟩ := tryMethods_cons_succ f .pymupdf [.pypdf2] h2
      refine ⟨.pymupdf, by simp [extractionOrder], h2, ?_, ⟨r, hr, ?_⟩, ?_⟩
      · intro s' _ hlt
        cases s' with
        | pdfplumber => exact h1
        | pymupdf => simp [stratIdx] at hlt
        | pypdf2 => simp [stratIdx] at hlt
      · rw [hext, t1, htm]
      · rw [hinv, t1, htm]
        simp [extractionOrder, stratIdx]
    | false =>
      have t2 := tryMethods_cons_fail f .pymupdf [.pypdf2] h2
      cases h3 : stratSucceeds .pypdf2 f with
      | true =>
        obtain ⟨r, hr, htm⟩ := tryMethods_cons_succ f .pypdf2 [] h3
        refine ⟨.pypdf2, by simp [extractionOrder], h3, ?_, ⟨r, hr, ?_⟩, ?_⟩
        · intro s' _ hlt
          cases s' with
          | pdfplumber => exact h1
          | pymupdf => exact h2
          | pypdf2 => simp [stratIdx] at hlt
        · rw [hext, t1, t2, htm]
        · rw [hinv, t1, t2, htm]
          simp [extractionOrder, stratIdx]
      | false =>
        exfalso
        obtain ⟨s, hmem, hs⟩ := h
        cases s with
        | pdfplumber => rw [h1] at hs; exact Bool.false_ne_true hs
        | pymupdf => rw [h2] at hs; exact Bool.false_ne_true hs
        | pypdf2 => rw [h3] at hs; exact Bool.false_ne_true hs

/-- A PDF on which the first strategy raises, the second succeeds with a
short text, and the third would succeed with a longer text. -/
def fileFirstWins : PdfFile :=
  { path := "doc1.pdf", fileExists := true, isPdf := true
    plumber := .throws "plumber failed"
    mupdf := .pages ["hi"]
    pypdf := .pages ["much longer text", "second page"] }

theorem C1_first_success_wins_witness :
    ∃ s ∈ extractionOrder, stratSucceeds s fileFirstWins = true ∧
      (∀ s' ∈ extractionOrder, stratIdx s' < stratIdx s →
        stratSucceeds s' fileFirstWins = false) ∧
      (∃ r, runStrategy s fileFirstWins = .ok r ∧ extract_text fileFirstWins = .ok r) ∧
      invokedStrategies fileFirstWins = extractionOrder.take (stratIdx s + 1) :=
  C1_first_success_wins fileFirstWins rfl rfl ⟨.pymupdf, by decide, by decide⟩

/-- C6: if every strategy raises or returns whitespace-only text, the chain
fails with the exhaustion error naming the file; it never returns a
successful empty result. -/
theorem C6_exhaustion_error (f : PdfFile)
    (hfe : f.fileExists = true) (hpdf : f.isPdf = true)
    (h : ∀ s ∈ extractionOrder, stratSucceeds s f = false) :
    extract_text f = .error ("Failed to extract text from PDF: " ++ f.path) := by
  have h1 := h .pdfplumber (by simp [extractionOrder])
  have h2 := h .pymupdf (by simp [extractionOrder])
  have h3 := h .pypdf2 (by simp [extractionOrder])
  have t1 := tryMethods_cons_fail f .pdfplumber [.pymupdf, .pypdf2] h1
  have t2 := tryMethods_cons_fail f .pymupdf [.pypdf2] h2
  have t3 := tryMethods_cons_fail f .pypdf2 [] h3
  have hext : extract_text f = (tryMethods f [.pdfplumber, .pymupdf, .pypdf2]).2 := by
    simp [extract_text, hfe, hpdf, extractionOrder]
  rw [hext, t1, t2, t3]
  rfl

/-- A PDF where pdfplumber sees only empty pages, PyMuPDF raises, and PyPDF2
sees only whitespace pages. -/
def fileAllFail : PdfFile :=
  { path := "empty.pdf", fileExists := true, isPdf := true
    plumber := .pages ["", ""]
    mupdf := .throws "mupdf err"
    pypdf := .pages ["   ", "\n\t"] }

theorem C6_exhaustion_error_witness :
    extract_text fileAllFail = .error ("Failed to extract text from PDF: " ++ fileAllFail.path) :=
  C6_exhaustion_error fileAllFail rfl rfl (by decide)

theorem pyJoin_eq_specJoinBlocks : ∀ xs : List String, pyJoin "\n\n" xs = specJoinBlocks xs
  | [] => rfl
  | [_] => rfl
  | x :: y :: xs => by
    simp only [pyJoin, specJoinBlocks]
    rw [pyJoin_eq_specJoinBlocks (y :: xs)]

theorem buildBlocks_eq_contrib (keep : String → Bool) :
    ∀ (n : Nat) (ps : List String),
      buildBlocks keep n ps =
        (contribPages keep n ps).map (fun p => specHeaderLine p.1 ++ "\n" ++ p.2)
  | _, [] => rfl
  | n, t :: ts => by
    simp only [buildBlocks, contribPages, List.map_append]
    rw [buildBlocks_eq_contrib keep (n + 1) ts]
    by_cases h : keep t = true
    · simp only [h, if_true, List.map_cons, List.map_nil]
      congr 1
      simp [specHeaderLine, String.append_assoc]
    · simp [h]

theorem tryMethods_ok {f : PdfFile} {l : List Strategy} {r : ExtractResult}
    (h : (tryMethods f l).2 = .ok r) : ∃ s ∈ l, runStrategy s f = .ok r := by
  induction l with
  | nil => simp [tryMethods] at h
  | cons s rest ih =>
    cases hr : runStrategy s f with
    | ok r' =>
      by_cases hne : pyStrip r'.text = ""
      · rw [show tryMethods f (s :: rest) = (s :: (tryMethods f rest).1, (tryMethods f rest).2) by
            simp [tryMethods, hr, hne]] at h
        obtain ⟨s', hmem, hs'⟩ := ih h
        exact ⟨s', by simp [hmem], hs'⟩
      · rw [show tryMethods f (s :: rest) = ([s], .ok r') by simp [tryMethods, hr, hne]] at h
        simp only at h
        cases h
        exact ⟨s, by simp, hr⟩
    | error m =>
      rw [show tryMethods f (s :: rest) = (s :: (tryMethods f rest).1, (tryMethods f rest).2) by
          simp [tryMethods, hr]] at h
      obtain ⟨s', hmem, hs'⟩ := ih h
      exact ⟨s', by simp [hmem], hs'⟩

theorem runStrategy_ok {s : Strategy} {f : PdfFile} {r : ExtractResult}
    (h : runStrategy s f = .ok r) :
    ∃ qs, stratOutcome s f = .pages qs ∧
      r = ⟨pyJoin "\n\n" (buildBlocks (keepPage s) 0 qs), s, qs.length⟩ := by
  cases ho : stratOutcome s f with
  | throws m => simp [runStrategy, ho] at h
  | pages qs =>
    rw [runStrategy, ho] at h
    cases h
    exact ⟨qs, rfl, rfl⟩

/-- C8: a successfully extracted document's text is the blank-line-separated
concatenation, in page order, of one block per contributing page, each block
being the header line `--- Page N ---` (N the 1-based page number) followed
by a newline and that page's text. -/
theorem C8_page_block_format (f : PdfFile) (r : ExtractResult)
    (h : extract_text f = .ok r) :
    ∃ qs, stratOutcome r.method f = .pages qs ∧
      r.text = specJoinBlocks ((contribPages (keepPage r.method) 0 qs).map
        (fun p => specHeaderLine p.1 ++ "\n" ++ p.2)) := by
  cases hfe : f.fileExists with
  | false => simp [extract_text, hfe] at h
  | true =>
    cases hpdf : f.isPdf with
    | false => simp [extract_text, hfe, hpdf] at h
    | true =>
      rw [extract_text, hfe, hpdf] at h
      simp only [Bool.true_eq_false, if_false] at h
      obtain ⟨s, _, hrs⟩ := tryMethods_ok h
      obtain ⟨qs, ho, hre⟩ := runStrategy_ok hrs
      subst hre
      exact ⟨qs, ho, by rw [pyJoin_eq_specJoinBlocks, buildBlocks_eq_contrib]⟩

/-- A PDF whose first strategy sees two non-empty pages. -/
def fileTwoPages : PdfFile :=
  { path := "two.pdf", fileExists := true, isPdf := true
    plumber := .pages ["alpha", "beta"]
    mupdf := .throws "unused"
    pypdf := .throws "unused" }

theorem C8_page_block_format_witness :
    ∃ qs, stratOutcome (ExtractResult.method ⟨"--- Page 1 ---\nalpha\n\n--- Page 2 ---\nbeta",
        .pdfplumber, 2⟩) fileTwoPages = .pages qs ∧
      ExtractResult.text ⟨"--- Page 1 ---\nalpha\n\n--- Page 2 ---\nbeta", .pdfplumber, 2⟩ =
        specJoinBlocks ((contribPages (keepPage (ExtractResult.method
          ⟨"--- Page 1 ---\nalpha\n\n--- Page 2 ---\nbeta", .pdfplumber, 2⟩)) 0 qs).map
          (fun p => specHeaderLine p.1 ++ "\n" ++ p.2)) :=
  C8_page_block_format fileTwoPages
    ⟨"--- Page 1 ---\nalpha\n\n--- Page 2 ---\nbeta", .pdfplumber, 2⟩ rfl

theorem contribPages_cons (keep : String → Bool) (start : Nat) (u : String)
    (us : List String) :
    contribPages keep start (u :: us) =
      (if keep u then [(start + 1, u)] else []) ++ contribPages keep (start + 1) us := rfl

theorem mem_contribPages (keep : String → Bool) :
    ∀ (start : Nat) (qs : List String) (n : Nat) (t : String),
      ((n, t) ∈ contribPages keep start qs) ↔
        ∃ k, n = start + k + 1 ∧ qs.get? k = some t ∧ keep t = true := by
  intro start qs
  induction qs generalizing start with
  | nil => intro n t; simp [contribPages]
  | cons u us ih =>
    intro n t
    by_cases hk : keep u = true
    · rw [contribPages_cons, if_pos hk, List.singleton_append, List.mem_cons, ih]
      constructor
      · rintro (h | ⟨k, hn, hg, ht⟩)
        · injection h with h1 h2
          subst h1; subst h2
          exact ⟨0, by omega, rfl, hk⟩
        · exact ⟨k + 1, by omega, by simpa using hg, ht⟩
      · rintro ⟨k, hn, hg, ht⟩
        cases k with
        | zero =>
          left
          rw [List.get?_cons_zero] at hg
          injection hg with hg
          subst hg
          simp [hn]
        | succ k =>
          exact Or.inr ⟨k, by omega, by rw [List.get?_cons_succ] at hg; exact hg, ht⟩
    · rw [contribPages_cons, if_neg hk, List.nil_append, ih]
      have hk' : keep u = false := by simpa using hk
      constructor
      · rintro ⟨k, hn, hg, ht⟩
        exact ⟨k + 1, by omega, by rw [List.get?_cons_succ]; exact hg, ht⟩
      · rintro ⟨k, hn, hg, ht⟩
        cases k with
        | zero =>
          rw [List.get?_cons_zero] at hg
          injection hg with hg
          subst hg
          rw [hk'] at ht
          cases ht
        | succ k =>
          exact ⟨k, by omega, by rw [List.get?_cons_succ] at hg; exact hg, ht⟩

theorem contribPages_bound (keep : String → Bool) :
    ∀ (start : Nat) (qs : List String) (p : Nat × String),
      p ∈ contribPages keep start qs → start < p.1 := by
  intro start qs
  induction qs generalizing start with
  | nil => intro p h; simp [contribPages] at h
  | cons u us ih =>
    intro p h
    by_cases hk : keep u = true
    · rw [contribPages_cons, if_pos hk, List.singleton_append, List.mem_cons] at h
      rcases h with h | h
      · rw [h]; exact Nat.lt_succ_self start
      · have := ih (start + 1) p h; omega
    · rw [contribPages_cons, if_neg hk, List.nil_append] at h
      have := ih (start + 1) p h; omega

theorem contribPages_chain (keep : String → Bool) :
    ∀ (start : Nat) (qs : List String),
      List.Chain' (fun a b : Nat × String => a.1 < b.1) (contribPages keep start qs) := by
  intro start qs
  induction qs generalizing start with
  | nil => simp [contribPages]
  | cons u us ih =>
    by_cases hk : keep u = true
    · rw [contribPages_cons, if_pos hk, List.singleton_append, List.chain'_cons']
      refine ⟨?_, ih (start + 1)⟩
      intro y hy
      have hmem : y ∈ contribPages keep (start + 1) us := List.mem_of_mem_head? hy
      exact contribPages_bound keep (start + 1) us y hmem
    · rw [contribPages_cons, if_neg hk, List.nil_append]
      exact ih (start + 1)

/-- A PDF whose first strategy sees three pages, the middle one empty. -/
def fileGapPages : PdfFile :=
  { path := "gap.pdf", fileExists := true, isPdf := true
    plumber := .pages ["a", "", "c"]
    mupdf := .throws "unused"
    pypdf := .throws "unused" }

/-- C10: pages with empty text (pdfplumber) or whitespace-only text (the
other two strategies) are omitted from the output, yet each emitted header
keeps the page's original 1-based index, the reported page count counts all
pages, header numbers are strictly increasing, and the page count may exceed
the number of blocks (headers may be non-consecutive). -/
theorem C10_empty_pages_omitted :
    (∀ qs n t, ((n, t) ∈ contribPages (keepPage .pdfplumber) 0 qs) ↔
        ∃ k, n = k + 1 ∧ qs.get? k = some t ∧ t ≠ "") ∧
    (∀ qs n t, ((n, t) ∈ contribPages (keepPage .pymupdf) 0 qs) ↔
        ∃ k, n = k + 1 ∧ qs.get? k = some t ∧ pyStrip t ≠ "") ∧
    (∀ qs n t, ((n, t) ∈ contribPages (keepPage .pypdf2) 0 qs) ↔
        ∃ k, n = k + 1 ∧ qs.get? k = some t ∧ pyStrip t ≠ "") ∧
    (∀ (f : PdfFile) (s : Strategy) (r : ExtractResult), runStrategy s f = .ok r →
        ∃ qs, stratOutcome s f = .pages qs ∧ r.pageCount = qs.length) ∧
    (∀ (s : Strategy) (qs : List String),
        List.Chain' (fun a b : Nat × String => a.1 < b.1) (contribPages (keepPage s) 0 qs)) ∧
    (∃ (f : PdfFile) (r : ExtractResult) (qs : List String),
        extract_text f = .ok r ∧ stratOutcome r.method f = .pages qs ∧
        (contribPages (keepPage r.method) 0 qs).map Prod.fst = [1, 3] ∧
        r.pageCount = 3 ∧ (contribPages (keepPage r.method) 0 qs).length < r.pageCount) := by
  refine ⟨?_, ?_, ?_, ?_, ?_, ?_⟩
  · intro qs n t
    rw [mem_contribPages]
    simp [keepPage, bne_iff_ne]
  · intro qs n t
    rw [mem_contribPages]
    simp [keepPage, bne_iff_ne]
  · intro qs n t
    rw [mem_contribPages]
    simp [keepPage, bne_iff_ne]
  · intro f s r h
    obtain ⟨qs, ho, hre⟩ := runStrategy_ok h
    exact ⟨qs, ho, by rw [hre]⟩
  · intro s qs
    exact contribPages_chain (keepPage s) 0 qs
  · exact ⟨fileGapPages, ⟨"--- Page 1 ---\na\n\n--- Page 3 ---\nc", .pdfplumber, 3⟩,
      ["a", "", "c"], rfl, rfl, by decide, rfl, by decide⟩

theorem C10_empty_pages_omitted_witness :
    ∃ k, 3 = k + 1 ∧ ["a", "", "c"].get? k = some "c" ∧ "c" ≠ "" :=
  (C10_empty_pages_omitted.1 ["a", "", "c"] 3 "c").mp (by decide)

/-! ## Model dispatch (src/extractor.py, get_language_model_type) -/

/-- The two backend families returned by `get_language_model_type`:
`OpenAILanguageModel` and `GeminiLanguageModel`. -/
inductive LMType
  | openai
  | gemini
deriving DecidableEq, Repr

/-- `get_language_model_type` (src/extractor.py): chat-style marker first,
then generative marker, defaulting to Gemini for unknown identifiers. -/
def get_language_model_type (model_id : String) : LMType :=
  if pyStartsWith model_id "gpt-" || pyIn "gpt" (lowerStr model_id) then .openai
  else if pyStartsWith model_id "gemini-" || pyIn "gemini" (lowerStr model_id) then .gemini
  else .gemini

theorem pyStartsWith_gpt_subsumed {s : String} (h : pyStartsWith s "gpt-" = true) :
    pyIn "gpt" (lowerStr s) = true := by
  obtain ⟨l⟩ := s
  have h' : isPrefixChars ['g', 'p', 't', '-'] l = true := h
  rcases l with _ | ⟨c1, l⟩
  · simp [isPrefixChars] at h'
  rcases l with _ | ⟨c2, l⟩
  · simp [isPrefixChars] at h'
  rcases l with _ | ⟨c3, l⟩
  · simp [isPrefixChars] at h'
  rcases l with _ | ⟨c4, l⟩
  · simp [isPrefixChars] at h'
  simp only [isPrefixChars, Bool.and_eq_true, beq_iff_eq] at h'
  obtain ⟨h1, h2, h3, h4, -⟩ := h'
  subst h1; subst h2; subst h3; subst h4
  show containsChars ['g', 'p', 't']
    (List.map Char.toLower ('g' :: 'p' :: 't' :: '-' :: l)) = true
  have e1 : Char.toLower 'g' = 'g' := rfl
  have e2 : Char.toLower 'p' = 'p' := rfl
  have e3 : Char.toLower 't' = 't' := rfl
  have e4 : Char.toLower '-' = '-' := rfl
  simp only [List.map_cons, e1, e2, e3, e4]
  simp [containsChars, isPrefixChars]

theorem get_language_model_type_eq (mid : String) :
    get_language_model_type mid =
      (if pyIn "gpt" (lowerStr mid) = true then LMType.openai else LMType.gemini) := by
  unfold get_language_model_type
  by_cases hg : pyIn "gpt" (lowerStr mid) = true
  · simp [hg]
  · have hs : pyStartsWith mid "gpt-" = false := by
      cases hsw : pyStartsWith mid "gpt-"
      · rfl
      · exact absurd (pyStartsWith_gpt_subsumed hsw) hg
    have hg' : pyIn "gpt" (lowerStr mid) = false := by simpa using hg
    simp [hs, hg']

/-- C7: backend dispatch is a deterministic, case-insensitive function of
substring containment: identifiers containing `gpt` (after lowering) route
to OpenAI with priority over the `gemini` marker, identifiers containing
`gemini` route to Gemini, anything else defaults to Gemini. -/
theorem C7_model_dispatch :
    (∀ mid, get_language_model_type mid =
        (if pyIn "gpt" (lowerStr mid) = true then LMType.openai else LMType.gemini)) ∧
    (∀ mid₁ mid₂, lowerStr mid₁ = lowerStr mid₂ →
        get_language_model_type mid₁ = get_language_model_type mid₂) ∧
    (∀ mid, pyIn "gpt" (lowerStr mid) = true →
        get_language_model_type mid = LMType.openai) ∧
    (∀ mid, pyIn "gpt" (lowerStr mid) = false → pyIn "gemini" (lowerStr mid) = true →
        get_language_model_type mid = LMType.gemini) ∧
    (∀ mid, pyIn "gpt" (lowerStr mid) = false → pyIn "gemini" (lowerStr mid) = false →
        get_language_model_type mid = LMType.gemini) := by
  refine ⟨get_language_model_type_eq, ?_, ?_, ?_, ?_⟩
  · intro a b hab
    rw [get_language_model_type_eq, get_language_model_type_eq, hab]
  · intro mid h
    rw [get_language_model_type_eq, if_pos h]
  · intro mid h _
    rw [get_language_model_type_eq, if_neg (by simp [h])]
  · intro mid h _
    rw [get_language_model_type_eq, if_neg (by simp [h])]

theorem C7_model_dispatch_witness :
    get_language_model_type "Custom-GPT-Gemini" = LMType.openai :=
  C7_model_dispatch.2.2.1 "Custom-GPT-Gemini" (by decide)

/-! ## Python values and template loading (src/utils.py) -/

/-- A Python value as it appears in template objects, extraction attributes
and confidences: a string, an integer, or `None`.  The code under
verification never inspects the payloads beyond equality and presence, so
this small value universe is faithful. -/
inductive PyVal
  | pstr (s : String)
  | pint (n : Int)
  | pnone
deriving DecidableEq, Repr

/-- A custom template file as `load_custom_template` sees it: the path does
not exist, the file fails to parse as JSON (`json.JSONDecodeError`), or it
parses into a top-level object — an ordered mapping of keys to values. -/
inductive TemplateSource
  | missingFile
  | unparsable (msg : String)
  | parsed (t : List (String × PyVal))
deriving DecidableEq, Repr

/-- The `required_fields` list of `load_custom_template`, in source order. -/
def requiredFields : List String := ["name", "prompt", "examples"]

/-- Python's `k in template` on the top-level object. -/
def hasKey (t : List (String × PyVal)) (k : String) : Bool :=
  (t.map Prod.fst).contains k

/-- The validation loop of `load_custom_template`: raises at the first
required field absent from the template. -/
def checkRequired (t : List (String × PyVal)) : List String → Except String Unit
  | [] => .ok ()
  | f :: fs =>
    if hasKey t f then checkRequired t fs
    else .error ("Template missing required field: " ++ f)

/-- `load_custom_template` (src/utils.py): existence check, JSON parse
(decode errors re-raised as `Invalid JSON in template file`), required-field
validation, then the parsed template returned unchanged. -/
def load_custom_template (path : String) (src : TemplateSource) :
    Except String (List (String × PyVal)) :=
  match src with
  | .missingFile => .error ("Template file not found: " ++ path)
  | .unparsable m => .error ("Invalid JSON in template file: " ++ m)
  | .parsed t =>
    match checkRequired t requiredFields with
    | .error m => .error m
    | .ok _ => .ok t

theorem checkRequired_all {t : List (String × PyVal)} :
    ∀ {fs : List String}, (∀ f ∈ fs, hasKey t f = true) → checkRequired t fs = .ok () := by
  intro fs
  induction fs with
  | nil => intro _; rfl
  | cons g gs ih =>
    intro h
    have hg := h g (by simp)
    rw [checkRequired, if_pos hg]
    exact ih fun f hf => h f (by simp [hf])

theorem checkRequired_find {t : List (String × PyVal)} :
    ∀ {fs : List String} {f : String}, fs.find? (fun g => !hasKey t g) = some f →
      checkRequired t fs = .error ("Template missing required field: " ++ f) := by
  intro fs
  induction fs with
  | nil => intro f h; simp at h
  | cons g gs ih =>
    intro f h
    cases hg : hasKey t g with
    | true =>
      rw [List.find?_cons_of_neg _ (by simp [hg])] at h
      rw [checkRequired, if_pos hg]
      exact ih h
    | false =>
      rw [List.find?_cons_of_pos _ (by simp [hg])] at h
      injection h with h
      subst h
      rw [checkRequired, if_neg (by simp [hg])]

/-- C9: a parsed custom template lacking a required field fails with an
error naming exactly the first missing field in the order name, prompt,
examples; a parsed template containing all three is returned unchanged. -/
theorem C9_template_required_fields (path : String) (t : List (String × PyVal)) :
    ((∀ f ∈ requiredFields, hasKey t f = true) →
        load_custom_template path (.parsed t) = .ok t) ∧
    (∀ f, requiredFields.find? (fun g => !hasKey t g) = some f →
        load_custom_template path (.parsed t) =
          .error ("Template missing required field: " ++ f)) := by
  constructor
  · intro h
    rw [load_custom_template, checkRequired_all h]
  · intro f h
    rw [load_custom_template, checkRequired_find h]

/-- A parsed template with `name` and `examples` but no `prompt`. -/
def tmplMissingPrompt : List (String × PyVal) :=
  [("name", .pstr "invoice"), ("examples", .pnone)]

theorem C9_template_required_fields_witness :
    load_custom_template "t.json" (.parsed tmplMissingPrompt) =
      .error ("Template missing required field: " ++ "prompt") :=
  (C9_template_required_fields "t.json" tmplMissingPrompt).2 "prompt" (by decide)

/-! ## StructuredExtractor (src/extractor.py) -/

/-- A normalized extraction item as built by `extract_from_text`:
`{'class': ..., 'text': ..., 'attributes': ..., 'confidence': ...}`.
`cls` stands for the Python key `class`; `confidence` is `pnone` when the
service reported none (`getattr(extraction, 'confidence', None)`). -/
structure ExtItem where
  cls : String
  text : String
  attributes : List (String × PyVal)
  confidence : PyVal
deriving DecidableEq, Repr

/-- The `metadata` dictionary of an extraction result: either the success
shape `{model_id, extraction_passes, total_extractions, text_length}` or the
failure shape `{error}`. -/
inductive MetaData
  | ok (modelId : String) (passes : Nat) (total : Nat) (textLength : Nat)
  | err (msg : String)
deriving DecidableEq, Repr

/-- The dictionary returned by `extract_from_text` / `extract_with_template`.
`error = none` models the absence of the `error` key on success. -/
structure ExtractionResult where
  extractions : List ExtItem
  metadata : MetaData
  success : Bool
  error : Option String
deriving DecidableEq, Repr

/-- An extraction object of the external service's result: either all four
accessed fields are present (`good`) or touching it raises (`bad`), e.g. an
`AttributeError` with the given message. -/
inductive RawItem
  | good (cls text : String) (attrs : List (String × PyVal)) (conf : PyVal)
  | bad (msg : String)
deriving DecidableEq, Repr

/-- The shape of a value returned by the external `lx.extract` call:
either it has no `extractions` attribute (`hasattr` is false) or it exposes
a list of extraction objects. -/
inductive ServiceResult
  | withoutExtractions
  | withExtractions (items : List RawItem)
deriving DecidableEq, Repr

/-- The behaviour of the external `lx.extract` call on this run. -/
inductive ServiceOutcome
  | throws (msg : String)
  | returns (r : ServiceResult)
deriving DecidableEq, Repr

/-- The environment of one extraction run: the credential environment
variables and the external service's behaviour. -/
structure RunEnv where
  googleKey : Option String
  openaiKey : Option String
  langextractKey : Option String
  service : ServiceOutcome
deriving DecidableEq, Repr

/-- Python's `a or b` on `os.getenv` results: the empty string is falsy. -/
def pyOrStr (a b : Option String) : Option String :=
  match a with
  | some s => if s = "" then b else some s
  | none => b

/-- The credential chain of `extract_from_text`:
`os.getenv('GOOGLE_API_KEY') or os.getenv('OPENAI_API_KEY') or
os.getenv('LANGEXTRACT_API_KEY')`. -/
def resolveApiKey (e : RunEnv) : Option String :=
  pyOrStr (pyOrStr e.googleKey e.openaiKey) e.langextractKey

/-- The normalization loop of `extract_from_text`: one dictionary per
extraction object, raising at the first object whose fields cannot be
accessed. -/
def normalizeItems : List RawItem → Except String (List ExtItem)
  | [] => .ok []
  | .bad m :: _ => .error m
  | .good c t a cf :: rest =>
    match normalizeItems rest with
    | .error m => .error m
    | .ok es => .ok (⟨c, t, a, cf⟩ :: es)

/-- The failure record built by the outer `except` of `extract_from_text`:
`{extractions: [], metadata: {error}, success: False, error}`. -/
def failureResult (m : String) : ExtractionResult :=
  { extractions := [], metadata := .err m, success := false, error := some m }

/-- `StructuredExtractor.extract_from_text`: call the service (a thrown
service error is re-raised as `LangExtract API error: ...`), normalize the
result's extraction objects if it has any, and wrap everything in a result
record; every exception is caught and converted into `failureResult`. -/
def extract_from_text (modelId text : String) (passes : Nat) (env : RunEnv) :
    ExtractionResult :=
  match env.service with
  | .throws m => failureResult ("LangExtract API error: " ++ m)
  | .returns .withoutExtractions =>
    { extractions := [], metadata := .ok modelId passes 0 text.length
      success := true, error := none }
  | .returns (.withExtractions items) =>
    match normalizeItems items with
    | .error m => failureResult m
    | .ok es =>
      { extractions := es, metadata := .ok modelId passes es.length text.length
        success := true, error := none }

/-- One extraction object of a template example:
`{'extraction_class': ..., 'extraction_text': ..., 'attributes': ...}` with
the first two mandatory (`KeyError` if absent) and the third defaulted. -/
structure RawExampleExt where
  cls : Option String
  txt : Option String
  attrs : Option (List (String × PyVal))
deriving DecidableEq, Repr

/-- One template example: `{'text': ..., 'extractions': ...}` with `text`
mandatory and `extractions` defaulted to the empty list. -/
structure RawExample where
  text : Option String
  extractions : Option (List RawExampleExt)
deriving DecidableEq, Repr

/-- A translated `lx.data.Extraction`. -/
structure TExtraction where
  cls : String
  txt : String
  attrs : List (String × PyVal)
deriving DecidableEq, Repr

/-- A translated `lx.data.ExampleData`. -/
structure TExample where
  text : String
  extractions : List TExtraction
deriving DecidableEq, Repr

/-- Python's `str(KeyError(k))`. -/
def keyErrorMsg (k : String) : String := "'" ++ k ++ "'"

def translateExt (e : RawExampleExt) : Except String TExtraction :=
  match e.cls with
  | none => .error (keyErrorMsg "extraction_class")
  | some c =>
    match e.txt with
    | none => .error (keyErrorMsg "extraction_text")
    | some t => .ok ⟨c, t, e.attrs.getD []⟩

def translateExts : List RawExampleExt → Except String (List TExtraction)
  | [] => .ok []
  | e :: rest =>
    match translateExt e with
    | .error m => .error m
    | .ok x =>
      match translateExts rest with
      | .error m => .error m
      | .ok xs => .ok (x :: xs)

/-- The example-translation loop of `extract_with_template`: the inner
extraction loop runs before `example_data['text']` is read. -/
def translateExample (ex : RawExample) : Except String TExample :=
  match translateExts (ex.extractions.getD []) with
  | .error m => .error m
  | .ok xs =>
    match ex.text with
    | none => .error (keyErrorMsg "text")
    | some t => .ok ⟨t, xs⟩

def translateExamples : List RawExample → Except String (List TExample)
  | [] => .ok []
  | ex :: rest =>
    match translateExample ex with
    | .error m => .error m
    | .ok x =>
      match translateExamples rest with
      | .error m => .error m
      | .ok xs => .ok (x :: xs)

/-- A template configuration dictionary as read by `extract_with_template`:
`prompt`, `examples` and the settings entries are all read with defaulting
`get` calls. -/
structure TemplateConfig where
  prompt : Option String
  examples : Option (List RawExample)
  passes : Option Nat
  workers : Option Nat
  buffer : Option Nat
deriving DecidableEq, Repr

/-- `StructuredExtractor.extract_with_template`: translate the template's
examples (any exception becomes a failure record with the same shape), then
delegate to `extract_from_text` with the template's settings. -/
def extract_with_template (modelId text : String) (cfg : TemplateConfig)
    (env : RunEnv) : ExtractionResult :=
  match translateExamples (cfg.examples.getD []) with
  | .error m => failureResult m
  | .ok _ => extract_from_text modelId text (cfg.passes.getD 1) env

/-- C2 (amended): the extraction call is total — any exception in example
translation, the service invocation, or normalization yields the record
`{success=false, error=msg, extractions=[], metadata={error: msg}}`, and
`success=false` whenever the service call throws or a returned extraction
object is malformed; however a service result that merely lacks the
`extractions` attribute yields `success=true` with an empty extraction
list. -/
theorem C2_failure_isolation :
    (∀ mid text cfg env m, translateExamples (cfg.examples.getD []) = .error m →
        extract_with_template mid text cfg env =
          { extractions := [], metadata := .err m, success := false, error := some m }) ∧
    (∀ mid text passes env m, env.service = .throws m →
        extract_from_text mid text passes env =
          { extractions := [], metadata := .err ("LangExtract API error: " ++ m)
            success := false, error := some ("LangExtract API error: " ++ m) }) ∧
    (∀ mid text passes env items m,
        env.service = .returns (.withExtractions items) →
        normalizeItems items = .error m →
        extract_from_text mid text passes env =
          { extractions := [], metadata := .err m, success := false, error := some m }) ∧
    (∀ mid text passes env, env.service = .returns .withoutExtractions →
        extract_from_text mid text passes env =
          { extractions := [], metadata := .ok mid passes 0 text.length
            success := true, error := none }) := by
  refine ⟨?_, ?_, ?_, ?_⟩
  · intro mid text cfg env m h
    rw [extract_with_template, h]
    rfl
  · intro mid text passes env m h
    rw [extract_from_text, h]
    rfl
  · intro mid text passes env items m hs hn
    rw [extract_from_text, hs]
    dsimp only
    rw [hn]
    rfl
  · intro mid text passes env h
    rw [extract_from_text, h]

/-- A run whose service call returns an object without an `extractions`
attribute. -/
def envNoAttr : RunEnv :=
  { googleKey := none, openaiKey := some "k", langextractKey := none
    service := .returns .withoutExtractions }

/-- C2 counterexample: for a service result of non-conforming shape (no
`extractions` attribute), the code returns `success = true` with an empty
extraction list, not `success = false` as claimed. -/
theorem C2_counterexample :
    (extract_from_text "gemini-2.5-flash" "doc" 1 envNoAttr).success = true ∧
    (extract_from_text "gemini-2.5-flash" "doc" 1 envNoAttr).extractions = [] ∧
    (extract_from_text "gemini-2.5-flash" "doc" 1 envNoAttr).error = none := by
  refine ⟨rfl, rfl, rfl⟩

theorem C2_failure_isolation_witness :
    extract_from_text "gpt-4" "some text" 2
        { googleKey := none, openaiKey := none, langextractKey := none
          service := .throws "connection refused" } =
      { extractions := []
        metadata := .err ("LangExtract API error: " ++ "connection refused")
        success := false, error := some ("LangExtract API error: " ++ "connection refused") } :=
  C2_failure_isolation.2.1 "gpt-4" "some text" 2
    { googleKey := none, openaiKey := none, langextractKey := none
      service := .throws "connection refused" } "connection refused" rfl

/-! ## ResultSink (src/extractor.py, save_results) -/

/-- The per-item row dictionary built by the CSV branch of `save_results`:
fixed entries `class`, `text`, `confidence`, then one `attr_<key>` entry per
attribute of the item, in insertion order. -/
def flatRow (it : ExtItem) : List (String × PyVal) :=
  [("class", .pstr it.cls), ("text", .pstr it.text), ("confidence", it.confidence)]
    ++ it.attributes.map (fun kv => ("attr_" ++ kv.1, kv.2))

def flatRows (r : ExtractionResult) : List (List (String × PyVal)) :=
  r.extractions.map flatRow

def rowKeys (row : List (String × PyVal)) : List String := row.map Prod.fst

def insertCol (acc : List String) (k : String) : List String :=
  if k ∈ acc then acc else acc ++ [k]

/-- Model of the pandas library: `pd.DataFrame(rows)` over a list of
per-row dictionaries takes as its column index the union of the rows' keys
in order of first appearance. -/
def frameColumns (rows : List (List (String × PyVal))) : List String :=
  rows.foldl (fun acc row => (rowKeys row).foldl insertCol acc) []

def lookupKey (row : List (String × PyVal)) (k : String) : Option PyVal :=
  (row.find? (fun kv => kv.1 == k)).map Prod.snd

/-- Model of the pandas library: `DataFrame.to_csv` emits, for every row,
one cell per column of the unioned index; a key absent from the row yields a
missing (`NaN`, written empty) cell, modelled as `none`. -/
def frameCells (rows : List (List (String × PyVal))) : List (List (Option PyVal)) :=
  rows.map (fun row => (frameColumns rows).map (lookupKey row))

theorem mem_insertCol {acc : List String} {k x : String} :
    x ∈ insertCol acc k ↔ x ∈ acc ∨ x = k := by
  unfold insertCol
  by_cases h : k ∈ acc
  · rw [if_pos h]
    constructor
    · exact Or.inl
    · rintro (hx | hx)
      · exact hx
      · rw [hx]; exact h
  · rw [if_neg h]
    simp

theorem mem_foldl_insertCol :
    ∀ (ks acc : List String) (x : String),
      x ∈ ks.foldl insertCol acc ↔ x ∈ acc ∨ x ∈ ks := by
  intro ks
  induction ks with
  | nil => intro acc x; simp
  | cons k ks ih =>
    intro acc x
    rw [List.foldl_cons, ih, mem_insertCol]
    simp [or_assoc]

theorem nodup_insertCol {acc : List String} {k : String} (h : acc.Nodup) :
    (insertCol acc k).Nodup := by
  unfold insertCol
  by_cases hk : k ∈ acc
  · rw [if_pos hk]; exact h
  · rw [if_neg hk]
    rw [List.nodup_append]
    refine ⟨h, List.nodup_singleton k, ?_⟩
    intro a ha hb
    exact hk ((List.mem_singleton.mp hb) ▸ ha)

theorem nodup_foldl_insertCol :
    ∀ (ks acc : List String), acc.Nodup → (ks.foldl insertCol acc).Nodup := by
  intro ks
  induction ks with
  | nil => intro acc h; exact h
  | cons k ks ih =>
    intro acc h
    rw [List.foldl_cons]
    exact ih _ (nodup_insertCol h)

theorem mem_frameColumns_aux :
    ∀ (rows : List (List (String × PyVal))) (acc : List String) (c : String),
      c ∈ rows.foldl (fun acc row => (rowKeys row).foldl insertCol acc) acc ↔
        c ∈ acc ∨ ∃ row ∈ rows, c ∈ rowKeys row := by
  intro rows
  induction rows with
  | nil => intro acc c; simp
  | cons row rows ih =>
    intro acc c
    rw [List.foldl_cons, ih, mem_foldl_insertCol]
    simp [or_assoc]

theorem nodup_frameColumns_aux :
    ∀ (rows : List (List (String × PyVal))) (acc : List String), acc.Nodup →
      (rows.foldl (fun acc row => (rowKeys row).foldl insertCol acc) acc).Nodup := by
  intro rows
  induction rows with
  | nil => intro acc h; exact h
  | cons row rows ih =>
    intro acc h
    rw [List.foldl_cons]
    exact ih _ (nodup_foldl_insertCol _ _ h)

theorem lookupKey_eq_none {row : List (String × PyVal)} {c : String} :
    lookupKey row c = none ↔ c ∉ rowKeys row := by
  unfold lookupKey rowKeys
  rw [Option.map_eq_none', List.find?_eq_none]
  constructor
  · intro h hc
    simp only [List.mem_map] at hc
    obtain ⟨kv, hkv, hfst⟩ := hc
    exact absurd (by simp [hfst]) (h kv hkv)
  · intro h kv hkv hbeq
    apply h
    simp only [List.mem_map]
    exact ⟨kv, hkv, by simpa using hbeq⟩

/-- C4 (amended): each in-memory row dictionary has exactly the fixed
columns `class`, `text`, `confidence` plus one `attr_<key>` entry per
attribute key of its own item, but the persisted CSV table's column set is
the union of all rows' keys in first-appearance order, with a missing cell
where a row lacks a key. -/
theorem C4_csv_columns (res : ExtractionResult) :
    (∀ it : ExtItem, rowKeys (flatRow it) =
        ["class", "text", "confidence"] ++ it.attributes.map (fun kv => "attr_" ++ kv.1)) ∧
    (∀ c, c ∈ frameColumns (flatRows res) ↔ ∃ row ∈ flatRows res, c ∈ rowKeys row) ∧
    (frameColumns (flatRows res)).Nodup ∧
    (∀ row ∈ flatRows res, ∀ c, lookupKey row c = none ↔ c ∉ rowKeys row) := by
  refine ⟨?_, ?_, ?_, ?_⟩
  · intro it
    simp [flatRow, rowKeys, List.map_map, Function.comp]
  · intro c
    exact mem_frameColumns_aux (flatRows res) [] c |>.trans (by simp)
  · exact nodup_frameColumns_aux (flatRows res) [] (List.nodup_nil)
  · intro row _ c
    exact lookupKey_eq_none

/-- An extraction result with two items carrying disjoint attribute keys. -/
def itemA : ExtItem := ⟨"person", "Alice", [("a", .pstr "1")], .pnone⟩

def itemB : ExtItem := ⟨"city", "Paris", [("b", .pstr "2")], .pnone⟩

def resDisjoint : ExtractionResult :=
  ⟨[itemA, itemB], .ok "gemini-2.5-flash" 1 2 10, true, none⟩

/-- C4 counterexample: on two items with disjoint attribute keys the
persisted table's column set is the union of both items' attribute columns —
the first row carries a (missing-valued) cell under the second item's key —
contradicting the claimed per-row column set with no unioning. -/
theorem C4_csv_columns_counterexample :
    frameColumns (flatRows resDisjoint) =
      ["class", "text", "confidence", "attr_a", "attr_b"] ∧
    "attr_b" ∉ rowKeys (flatRow itemA) ∧
    (frameCells (flatRows resDisjoint)).get? 0 =
      some [some (.pstr "person"), some (.pstr "Alice"), some .pnone,
        some (.pstr "1"), none] := by
  refine ⟨by decide, by decide, by decide⟩

theorem C4_csv_columns_witness :
    lookupKey (flatRow itemA) "attr_b" = none ↔ "attr_b" ∉ rowKeys (flatRow itemA) :=
  (C4_csv_columns resDisjoint).2.2.2 (flatRow itemA) (by decide) "attr_b"

/-- The content written by one branch of `save_results`. -/
inductive FileContent
  | jsonDoc (r : ExtractionResult)
  | jsonlLines (items : List ExtItem)
  | csvDoc (header : List String) (cells : List (List (Option PyVal)))
deriving DecidableEq, Repr

/-- A filesystem effect of `save_results`, in order of occurrence. -/
inductive FsAction
  | mkdirParents
  | fileWrite (c : FileContent)
deriving DecidableEq, Repr

/-- The filesystem's behaviour on this call: whether the recursive
`mkdir(parents=True, exist_ok=True)` throws, and whether the subsequent
open/serialize/write throws. -/
structure FsEnv where
  mkdirThrows : Option String
  writeThrows : Option String
deriving DecidableEq, Repr

/-- `StructuredExtractor.save_results`: create parent directories, then
dispatch on `format.lower()` over `json`/`jsonl`/`csv`; any exception is
caught and turned into `False`; a format matching no branch falls through to
`return True` without writing anything.  Returns the success flag and the
trace of filesystem effects. -/
def save_results (res : ExtractionResult) (fmt : String) (env : FsEnv) :
    Bool × List FsAction :=
  match env.mkdirThrows with
  | some _ => (false, [])
  | none =>
    if lowerStr fmt = "json" then
      match env.writeThrows with
      | some _ => (false, [.mkdirParents])
      | none => (true, [.mkdirParents, .fileWrite (.jsonDoc res)])
    else if lowerStr fmt = "jsonl" then
      match env.writeThrows with
      | some _ => (false, [.mkdirParents])
      | none => (true, [.mkdirParents, .fileWrite (.jsonlLines res.extractions)])
    else if lowerStr fmt = "csv" then
      match env.writeThrows with
      | some _ => (false, [.mkdirParents])
      | none => (true, [.mkdirParents,
          .fileWrite (.csvDoc (frameColumns (flatRows res)) (frameCells (flatRows res)))])
    else (true, [.mkdirParents])

theorem save_results_trace (res : ExtractionResult) (fmt : String) (env : FsEnv) :
    (save_results res fmt env).2 = [] ∨
    (save_results res fmt env).2 = [.mkdirParents] ∨
    ∃ c, (save_results res fmt env).2 = [.mkdirParents, .fileWrite c] := by
  cases hm : env.mkdirThrows with
  | some m => left; simp [save_results, hm]
  | none =>
    by_cases h1 : lowerStr fmt = "json"
    · cases hw : env.writeThrows with
      | some m => right; left; simp [save_results, hm, hw, h1]
      | none =>
        right; right
        exact ⟨.jsonDoc res, by simp [save_results, hm, hw, h1]⟩
    · by_cases h2 : lowerStr fmt = "jsonl"
      · cases hw : env.writeThrows with
        | some m => right; left; simp [save_results, hm, hw, h1, h2]
        | none =>
          right; right
          exact ⟨.jsonlLines res.extractions, by simp [save_results, hm, hw, h1, h2]⟩
      · by_cases h3 : lowerStr fmt = "csv"
        · cases hw : env.writeThrows with
          | some m => right; left; simp [save_results, hm, hw, h1, h2, h3]
          | none =>
            right; right
            exact ⟨.csvDoc (frameColumns (flatRows res)) (frameCells (flatRows res)),
              by simp [save_results, hm, hw, h1, h2, h3]⟩
        · right; left; simp [save_results, hm, h1, h2, h3]

/-- C5 (amended): `persist` returns a boolean and never raises; it returns
`false` on a directory-creation or write/serialization failure in a
supported format; the parent-directory creation precedes any write in the
effect trace; but an unsupported format path returns `true` with nothing
written, so `true` does not imply the output was written. -/
theorem C5_persist_boolean (res : ExtractionResult) (fmt : String) (env : FsEnv) :
    (∀ m, env.mkdirThrows = some m → save_results res fmt env = (false, [])) ∧
    (env.mkdirThrows = none → ∀ m, env.writeThrows = some m →
        lowerStr fmt ∈ ["json", "jsonl", "csv"] →
        save_results res fmt env = (false, [.mkdirParents])) ∧
    (env.mkdirThrows = none → env.writeThrows = none →
        lowerStr fmt ∈ ["json", "jsonl", "csv"] →
        ∃ c, save_results res fmt env = (true, [.mkdirParents, .fileWrite c])) ∧
    (env.mkdirThrows = none → lowerStr fmt ∉ ["json", "jsonl", "csv"] →
        save_results res fmt env = (true, [.mkdirParents])) ∧
    (∀ i c, (save_results res fmt env).2.get? i = some (.fileWrite c) →
        ∃ j, j < i ∧ (save_results res fmt env).2.get? j = some .mkdirParents) := by
  refine ⟨?_, ?_, ?_, ?_, ?_⟩
  · intro m hm
    simp [save_results, hm]
  · intro hm m hw hmem
    simp only [List.mem_cons, List.mem_singleton, List.not_mem_nil, or_false] at hmem
    rcases hmem with h | h | h <;> simp [save_results, hm, hw, h]
  · intro hm hw hmem
    simp only [List.mem_cons, List.mem_singleton, List.not_mem_nil, or_false] at hmem
    rcases hmem with h | h | h
    · exact ⟨.jsonDoc res, by simp [save_results, hm, hw, h]⟩
    · exact ⟨.jsonlLines res.extractions, by simp [save_results, hm, hw, h]⟩
    · exact ⟨.csvDoc (frameColumns (flatRows res)) (frameCells (flatRows res)),
        by simp [save_results, hm, hw, h]⟩
  · intro hm hmem
    simp only [List.mem_cons, List.mem_singleton, List.not_mem_nil, or_false, not_or] at hmem
    obtain ⟨h1, h2, h3⟩ := hmem
    simp [save_results, hm, h1, h2, h3]
  · rcases save_results_trace res fmt env with h | h | ⟨c', h⟩ <;> rw [h]
    · intro i c hi
      simp at hi
    · intro i c hi
      cases i with
      | zero => simp at hi
      | succ i => cases i <;> simp at hi
    · intro i c hi
      cases i with
      | zero => simp at hi
      | succ i =>
        cases i with
        | zero => exact ⟨0, Nat.zero_lt_one, rfl⟩
        | succ i => simp at hi

/-- A run where directory creation succeeds but the write raises. -/
def envWriteFail : FsEnv := ⟨none, some "disk full"⟩

/-- A run with no filesystem failures. -/
def envFsClean : FsEnv := ⟨none, none⟩

/-- C5 counterexample: persisting with the unsupported format `xml` returns
`true` while writing nothing — the claim requires `false` on an unsupported
format path and `true` only when the output was written. -/
theorem C5_persist_boolean_counterexample :
    save_results resDisjoint "xml" envFsClean = (true, [.mkdirParents]) := rfl

theorem C5_persist_boolean_witness :
    save_results resDisjoint "json" envWriteFail = (false, [FsAction.mkdirParents]) :=
  (C5_persist_boolean resDisjoint "json" envWriteFail).2.1 rfl "disk full" rfl (by decide)

/-! ## BatchRunner (pdf_extractor.py, batch command) -/

/-- One input file of a batch run together with the behaviour of the
external collaborators on it. -/
structure BatchItem where
  pdf : PdfFile
  run : RunEnv
  fs : FsEnv
deriving DecidableEq, Repr

/-- One entry of `results_summary`.  `error = none` / `extractionsCount =
none` / `outputFile = none` model keys absent from the Python dictionary.
The file name and output stem are represented by the path (name derivation
from the path is not modelled). -/
structure Outcome where
  file : String
  status : String
  error : Option String
  extractionsCount : Option Nat
  outputFile : Option String
deriving DecidableEq, Repr

/-- One iteration of the batch loop: text extraction (an exception is caught
by the loop's `except` and recorded as status `error`), the dead `failed`
branch guarding an ok result with missing/empty text, then template
extraction (total, §4.3) and persistence (total, returning a boolean). -/
def processFile (modelId : String) (cfg : TemplateConfig) (fmt : String)
    (it : BatchItem) : Outcome :=
  match extract_text it.pdf with
  | .error e =>
    { file := it.pdf.path, status := "error", error := some e
      extractionsCount := none, outputFile := none }
  | .ok tr =>
    if tr.text = "" then
      { file := it.pdf.path, status := "failed"
        error := some "Failed to extract text from PDF"
        extractionsCount := none, outputFile := none }
    else
      let res := extract_with_template modelId tr.text cfg it.run
      let saved := (save_results res fmt it.fs).1
      { file := it.pdf.path
        status := if saved then "success" else "save_failed"
        error := none
        extractionsCount := some res.extractions.length
        outputFile := if saved then some (it.pdf.path ++ "_extracted." ++ fmt) else none }

/-- The per-run artifacts of the `batch` command: the in-memory outcome
list, the content of the unconditionally written `batch_summary.json`, and
the displayed success/failure counts. -/
structure BatchReport where
  outcomes : List Outcome
  summaryFile : List Outcome
  successCount : Nat
  failedCount : Nat
deriving DecidableEq, Repr

/-- The `batch` command loop over the input files, in input order. -/
def run_batch (modelId : String) (cfg : TemplateConfig) (fmt : String)
    (files : List BatchItem) : BatchReport :=
  let outs := files.map (processFile modelId cfg fmt)
  { outcomes := outs
    summaryFile := outs
    successCount := (outs.filter (fun o => o.status == "success")).length
    failedCount := outs.length - (outs.filter (fun o => o.status == "success")).length }

theorem processFile_file (modelId : String) (cfg : TemplateConfig) (fmt : String)
    (it : BatchItem) : (processFile modelId cfg fmt it).file = it.pdf.path := by
  cases h : extract_text it.pdf with
  | error e => simp [processFile, h]
  | ok tr =>
    simp only [processFile, h]
    split <;> rfl

/-- C3 (amended): every input file yields exactly one outcome, in input
order; a file whose text extraction raises (including extraction-exhausted
files with no extractable text) is recorded with status `error` — not
`failed` — together with the extraction error, while all other files are
still processed independently; and the summary, covering every file, is
produced regardless of per-file failures. -/
theorem C3_batch_isolation (modelId : String) (cfg : TemplateConfig) (fmt : String)
    (files : List BatchItem) :
    (run_batch modelId cfg fmt files).outcomes.length = files.length ∧
    (∀ i (h : i < files.length),
        (run_batch modelId cfg fmt files).outcomes.get? i =
          some (processFile modelId cfg fmt (files.get ⟨i, h⟩))) ∧
    (∀ it : BatchItem, ∀ e, extract_text it.pdf = .error e →
        processFile modelId cfg fmt it =
          { file := it.pdf.path, status := "error", error := some e
            extractionsCount := none, outputFile := none }) ∧
    (run_batch modelId cfg fmt files).summaryFile =
      (run_batch modelId cfg fmt files).outcomes ∧
    (run_batch modelId cfg fmt files).summaryFile.map Outcome.file =
      files.map (fun it => it.pdf.path) := by
  refine ⟨?_, ?_, ?_, rfl, ?_⟩
  · simp [run_batch]
  · intro i h
    simp only [run_batch, List.get?_map]
    rw [List.get?_eq_get h]
    rfl
  · intro it e h
    simp [processFile, h]
  · simp only [run_batch, List.map_map]
    exact List.map_congr_left fun it _ => processFile_file modelId cfg fmt it

/-- A PDF with ordinary extractable text on one page. -/
def goodFile (p : String) : PdfFile :=
  ⟨p, true, true, .pages ["text"], .throws "unused", .throws "unused"⟩

/-- A PDF with no extractable text under any strategy. -/
def badFile : PdfFile :=
  ⟨"f3.pdf", true, true, .pages [""], .pages ["  "], .throws "no text layer"⟩

/-- A run environment whose service call returns one well-formed item. -/
def envServiceOk : RunEnv :=
  { googleKey := some "key", openaiKey := none, langextractKey := none
    service := .returns (.withExtractions [.good "person" "Bob" [] .pnone]) }

/-- A demo template configuration. -/
def cfgDemo : TemplateConfig :=
  { prompt := some "extract people", examples := some [], passes := some 1
    workers := some 10, buffer := some 1000 }

/-- Five batch inputs, the third with no extractable text. -/
def batchFive : List BatchItem :=
  [⟨goodFile "f1.pdf", envServiceOk, envFsClean⟩,
   ⟨goodFile "f2.pdf", envServiceOk, envFsClean⟩,
   ⟨badFile, envServiceOk, envFsClean⟩,
   ⟨goodFile "f4.pdf", envServiceOk, envFsClean⟩,
   ⟨goodFile "f5.pdf", envServiceOk, envFsClean⟩]

/-- C3 counterexample: over five files where only the third has no
extractable text, the batch yields five outcomes with the third of status
`error` — no outcome of status `failed`, contrary to the claim — while the
summary still covers all five files. -/
theorem C3_batch_isolation_counterexample :
    (run_batch "gemini-2.5-flash" cfgDemo "json" batchFive).outcomes.map Outcome.status =
      ["success", "success", "error", "success", "success"] ∧
    "failed" ∉ (run_batch "gemini-2.5-flash" cfgDemo "json" batchFive).outcomes.map
      Outcome.status ∧
    (run_batch "gemini-2.5-flash" cfgDemo "json" batchFive).summaryFile.length = 5 := by
  refine ⟨by decide, by decide, by decide⟩

theorem C3_batch_isolation_witness :
    processFile "gemini-2.5-flash" cfgDemo "json" ⟨badFile, envServiceOk, envFsClean⟩ =
      { file := "f3.pdf", status := "error"
        error := some ("Failed to extract text from PDF: " ++ "f3.pdf")
        extractionsCount := none, outputFile := none } :=
  (C3_batch_isolation "gemini-2.5-flash" cfgDemo "json" batchFive).2.2.1
    ⟨badFile, envServiceOk, envFsClean⟩ ("Failed to extract text from PDF: " ++ "f3.pdf") rfl

end PdfToStructured
